import Mathlib

/-!
Verification of the Auto Fibonacci indicator (MT5-ibkr-complete, C++ sources
`AutoFibIndicator.h/.cpp` and `IBKRAutoFibClient.h/.cpp`) against its
natural-language specification.

Modelling conventions:
* C++ `double` prices are embedded as exact rationals `ℚ`.
* C++ `std::string` time labels are embedded as `String`; `std::string`'s
  `operator<` / `operator>` are lexicographic comparisons of the character
  sequence, embedded as the lexicographic order on `String.data : List Char`.
* `std::map<std::string, double>` is embedded as a key-sorted association
  list `List (String × ℚ)`; `find`-style reads are `mapFind?`, and the
  mutating `operator[]` (which default-inserts `0.0` for an absent key) is
  `mapBracket`, returning the value read together with the possibly-extended
  map.
* `AutoFibIndicator::getCurrentTimestamp` reads the wall clock; the clock is
  made an explicit parameter `now : String` of `calculate`.
* The blocking acquisition in `IBKRAutoFibClient::getHistoricalData` is
  embedded state-passing style: `GateState` is the shared state
  (`historical_data` buffer plus the `data_end_received` flag) at the moment
  `data_cv.wait_for` returns, and `getHistoricalData` maps that state to the
  vector the C++ function returns (the buffer if the completion predicate
  held, a fresh empty vector on timeout).
-/

/-- One OHLC price sample, mirroring the IBKR API `Bar` struct as used by the
sources (`time`, `open`, `high`, `low`, `close`, `volume`); the C++ field
`open` is rendered `open_` because `open` is a Lean keyword. -/
structure Bar where
  time : String
  open_ : ℚ
  high : ℚ
  low : ℚ
  close : ℚ
  volume : ℚ
deriving DecidableEq

instance : Inhabited Bar := ⟨⟨"", 0, 0, 0, 0, 0⟩⟩

/-- Result record of one `calculate` call, mirroring `struct FibonacciResults`
from `AutoFibIndicator.h`. -/
structure FibonacciResults where
  timestamp : String
  trend : String
  high_value : ℚ
  low_value : ℚ
  high_time : String
  low_time : String
  high_bar_index : Int
  low_bar_index : Int
  fibo_range : ℚ
  fibo_levels : List (String × ℚ)
  golden_zone_low : ℚ
  golden_zone_high : ℚ
  current_price : ℚ
  price_in_golden_zone : Bool
  error : String
deriving DecidableEq

/-- The `FibonacciResults()` default constructor: numeric fields `0`, strings
empty, `price_in_golden_zone` false, empty level map. -/
def emptyResults : FibonacciResults :=
  { timestamp := "", trend := "", high_value := 0, low_value := 0,
    high_time := "", low_time := "", high_bar_index := 0, low_bar_index := 0,
    fibo_range := 0, fibo_levels := [], golden_zone_low := 0,
    golden_zone_high := 0, current_price := 0, price_in_golden_zone := false,
    error := "" }

instance : Inhabited FibonacciResults := ⟨emptyResults⟩

/-- Embedding of `std::map::find` on a `std::map<std::string, double>`:
first entry with the given key (a key-sorted map has at most one). -/
def mapFind? (l : List (String × ℚ)) (k : String) : Option ℚ :=
  match l with
  | [] => none
  | p :: rest => if p.1 = k then some p.2 else mapFind? rest k

/-- Insertion into the key-sorted association list embedding of `std::map`
(`std::map` keeps keys sorted; `operator<` on keys is lexicographic). -/
def mapInsertSorted (k : String) (v : ℚ) (l : List (String × ℚ)) :
    List (String × ℚ) :=
  match l with
  | [] => [(k, v)]
  | p :: rest =>
    if k.data < p.1.data then (k, v) :: p :: rest
    else if k = p.1 then (k, v) :: rest
    else p :: mapInsertSorted k v rest

/-- Embedding of `std::map::operator[]` on `std::map<std::string, double>`:
reading an absent key value-initialises it to `0.0` and inserts it; the read
value is returned together with the possibly-extended map. -/
def mapBracket (l : List (String × ℚ)) (k : String) : ℚ × List (String × ℚ) :=
  match mapFind? l k with
  | some v => (v, l)
  | none => (0, mapInsertSorted k 0 l)

/-- State of one `AutoFibIndicator` object (`AutoFibIndicator.h`): the
configuration (`bars_back`, `start_bar`, `fibo_level_values`), the diagnostic
cache of the last extremes, and the stored `results`. -/
structure AutoFibIndicator where
  bars_back : Int
  start_bar : Int
  fibo_level_values : List (String × ℚ)
  last_lowest_bar : Int
  last_highest_bar : Int
  last_high_value : ℚ
  last_low_value : ℚ
  last_is_bullish : Bool
  results : FibonacciResults
deriving DecidableEq

/-- The ten default Fibonacci level ratios installed by the
`AutoFibIndicator` constructor (exact rationals for the C++ literals). -/
def defaultLevels : List (String × ℚ) :=
  [("level_0", 0), ("level_1", 236/1000), ("level_2", 382/1000),
   ("level_3", 500/1000), ("level_4", 618/1000), ("level_5", 764/1000),
   ("level_6", 886/1000), ("level_7", 1), ("level_8", 1618/1000),
   ("level_9", 2618/1000)]

/-- The `AutoFibIndicator(barsBack, startBar)` constructor. -/
def mkAutoFibIndicator (barsBack startBar : Int) : AutoFibIndicator :=
  { bars_back := barsBack, start_bar := startBar,
    fibo_level_values := defaultLevels,
    last_lowest_bar := -1, last_highest_bar := -1,
    last_high_value := 0, last_low_value := 0, last_is_bullish := true,
    results := emptyResults }

/-- `AutoFibIndicator::setFibonacciLevels`: replaces the level map wholesale. -/
def setFibonacciLevels (ind : AutoFibIndicator) (levels : List (String × ℚ)) :
    AutoFibIndicator :=
  { ind with fibo_level_values := levels }

/-- The scan loop of `AutoFibIndicator::findLowestBar`: `fuel` iterations
remain, `i` is the current index, `bestIdx`/`bestVal` the current extreme;
only a strictly lesser `low` replaces the current extreme. -/
def scanLowest (bars : List Bar) (fuel i bestIdx : Nat) (bestVal : ℚ) : Nat :=
  match fuel with
  | 0 => bestIdx
  | f + 1 =>
    if (bars.getD i default).low < bestVal then
      scanLowest bars f (i + 1) i (bars.getD i default).low
    else
      scanLowest bars f (i + 1) bestIdx bestVal

/-- The scan loop of `AutoFibIndicator::findHighestBar`; only a strictly
greater `high` replaces the current extreme. -/
def scanHighest (bars : List Bar) (fuel i bestIdx : Nat) (bestVal : ℚ) : Nat :=
  match fuel with
  | 0 => bestIdx
  | f + 1 =>
    if bestVal < (bars.getD i default).high then
      scanHighest bars f (i + 1) i (bars.getD i default).high
    else
      scanHighest bars f (i + 1) bestIdx bestVal

/-- `AutoFibIndicator::findLowestBar(bars, start, count)`: `-1` when the
window is invalid, otherwise the index of the first minimal `low` in
`[start, start + count)`. -/
def findLowestBar (bars : List Bar) (start count : Int) : Int :=
  if start < 0 ∨ count ≤ 0 ∨ (bars.length : Int) < start + count then -1
  else
    (scanLowest bars count.toNat start.toNat start.toNat
      ((bars.getD start.toNat default).low) : Nat)

/-- `AutoFibIndicator::findHighestBar(bars, start, count)`. -/
def findHighestBar (bars : List Bar) (start count : Int) : Int :=
  if start < 0 ∨ count ≤ 0 ∨ (bars.length : Int) < start + count then -1
  else
    (scanHighest bars count.toNat start.toNat start.toNat
      ((bars.getD start.toNat default).high) : Nat)

/-- The success path of `AutoFibIndicator::calculate` (all three validity
checks passed), given the indices `li`/`hi` returned by the two scans:
computes trend, range, the level prices (from the map as configured at entry),
the golden zone (reading `level_2`/`level_4` through `operator[]`, which may
insert them), stores the results and updates the diagnostic cache. `now` is
the wall-clock string `getCurrentTimestamp()` returns. -/
def successState (ind : AutoFibIndicator) (bars : List Bar) (now : String)
    (li hi : Nat) : AutoFibIndicator :=
  let high_value := (bars.getD hi default).high
  let low_value := (bars.getD li default).low
  let high_time := (bars.getD hi default).time
  let low_time := (bars.getD li default).time
  let is_bullish : Bool := decide (low_time.data < high_time.data)
  let fibo_range := high_value - low_value
  let fibo_prices :=
    if is_bullish then
      ind.fibo_level_values.map (fun p => (p.1, low_value + fibo_range * p.2))
    else
      ind.fibo_level_values.map (fun p => (p.1, high_value - fibo_range * p.2))
  let gz :=
    if is_bullish then
      let b2 := mapBracket ind.fibo_level_values "level_2"
      let b4 := mapBracket b2.2 "level_4"
      (low_value + fibo_range * b2.1, low_value + fibo_range * b4.1, b4.2)
    else
      let b4 := mapBracket ind.fibo_level_values "level_4"
      let b2 := mapBracket b4.2 "level_2"
      (high_value - fibo_range * b4.1, high_value - fibo_range * b2.1, b2.2)
  let current_price := (bars.getLastD default).close
  { ind with
    fibo_level_values := gz.2.2,
    last_lowest_bar := (li : Int), last_highest_bar := (hi : Int),
    last_high_value := high_value, last_low_value := low_value,
    last_is_bullish := is_bullish,
    results :=
      { timestamp := now,
        trend := if is_bullish then "BULLISH" else "BEARISH",
        high_value := high_value, low_value := low_value,
        high_time := high_time, low_time := low_time,
        high_bar_index := (hi : Int), low_bar_index := (li : Int),
        fibo_range := fibo_range, fibo_levels := fibo_prices,
        golden_zone_low := gz.1, golden_zone_high := gz.2.1,
        current_price := current_price,
        price_in_golden_zone :=
          decide (gz.1 ≤ current_price ∧ current_price ≤ gz.2.1),
        error := "" } }

/-- `AutoFibIndicator::calculate(bars)`: resets `results`, checks the three
preconditions in order (`"Not enough bars"`, `"Could not find highest/lowest
bar"`, `"Invalid price data"`), and otherwise runs the success path. -/
def calculate (ind : AutoFibIndicator) (bars : List Bar) (now : String) :
    AutoFibIndicator :=
  if (bars.length : Int) < ind.bars_back + ind.start_bar then
    { ind with results := { emptyResults with error := "Not enough bars" } }
  else
    let lowest_idx := findLowestBar bars ind.start_bar ind.bars_back
    let highest_idx := findHighestBar bars ind.start_bar ind.bars_back
    if lowest_idx < 0 ∨ highest_idx < 0 then
      { ind with results :=
          { emptyResults with error := "Could not find highest/lowest bar" } }
    else
      let high_value := (bars.getD highest_idx.toNat default).high
      let low_value := (bars.getD lowest_idx.toNat default).low
      if high_value ≤ 0 ∨ low_value ≤ 0 ∨ high_value ≤ low_value then
        { ind with results := { emptyResults with error := "Invalid price data" } }
      else
        successState ind bars now lowest_idx.toNat highest_idx.toNat

/-- The `FibonacciResults` value returned by `calculate` (the C++ method
returns the freshly stored `results` member by value). -/
def calcResults (ind : AutoFibIndicator) (bars : List Bar) (now : String) :
    FibonacciResults :=
  (calculate ind bars now).results

/-- `AutoFibIndicator::getSignal()` on the stored results. -/
def getSignal (ind : AutoFibIndicator) : String :=
  if ind.results.error ≠ "" then "NO_DATA"
  else if ind.results.price_in_golden_zone then
    if ind.results.trend = "BULLISH" then "BUY" else "SELL"
  else "HOLD"

/-- The shared acquisition state of `IBKRAutoFibClient` at the moment the
wait in `getHistoricalData` ends: the accumulated `historical_data` buffer
and the `data_end_received` completion flag (`true` when
`historicalDataEnd` ran before the 30 s timeout, `false` on timeout). -/
structure GateState where
  historical_data : List Bar
  data_end_received : Bool
deriving DecidableEq

/-- `IBKRAutoFibClient::getHistoricalData()`: waits on `data_cv` for
`data_end_received` with a 30 s timeout; on success returns the accumulated
buffer, on timeout returns a fresh empty `std::vector<Bar>()`. -/
def getHistoricalData (g : GateState) : List Bar :=
  if g.data_end_received then g.historical_data else []

/-- The tail of `IBKRAutoFibClient::runIndicator` after the bars have been
fetched: an empty vector yields the error result `"No data received"`
without touching the indicator; otherwise `indicator->calculate(bars)` runs.
Returns the `FibonacciResults` together with the indicator state afterwards. -/
def runIndicatorPostFetch (ind : AutoFibIndicator) (bars : List Bar)
    (now : String) : FibonacciResults × AutoFibIndicator :=
  if bars.isEmpty then ({ emptyResults with error := "No data received" }, ind)
  else
    let ind1 := calculate ind bars now
    (ind1.results, ind1)

/-! Helper lemmas about the map embedding. -/

/-- Cast-cancellation for integer literals produced while evaluating the
embedding on concrete inputs. -/
theorem int_toNat_lit (n : ℕ) [n.AtLeastTwo] :
    (Int.toNat (no_index (OfNat.ofNat n))) = OfNat.ofNat n := rfl

theorem mapFind?_map (f : ℚ → ℚ) (l : List (String × ℚ)) (k : String) :
    mapFind? (l.map (fun p => (p.1, f p.2))) k = (mapFind? l k).map f := by
  induction l with
  | nil => rfl
  | cons p rest ih => by_cases h : p.1 = k <;> simp [mapFind?, h, ih]

theorem mapFind?_insertSorted_ne (k k' : String) (v : ℚ) (l : List (String × ℚ))
    (h : k' ≠ k) : mapFind? (mapInsertSorted k v l) k' = mapFind? l k' := by
  have hk : ¬ (k = k') := fun e => h e.symm
  induction l with
  | nil => simp [mapInsertSorted, mapFind?, hk]
  | cons p rest ih =>
    simp only [mapInsertSorted]
    by_cases h1 : k.data < p.1.data
    · simp [mapFind?, hk, h1]
    · by_cases h2 : k = p.1
      · have hp : ¬ (p.1 = k') := fun e => hk (h2.trans e)
        rw [if_neg h1, if_pos h2]
        simp [mapFind?, hk, hp]
      · rw [if_neg h1, if_neg h2]
        simp [mapFind?, hk, ih]

theorem mapBracket_of_some {l : List (String × ℚ)} {k : String} {v : ℚ}
    (h : mapFind? l k = some v) : mapBracket l k = (v, l) := by
  simp [mapBracket, h]

theorem mapBracket_fst (l : List (String × ℚ)) (k : String) :
    (mapBracket l k).1 = (mapFind? l k).getD 0 := by
  cases h : mapFind? l k <;> simp [mapBracket, h]

theorem mapFind?_mapBracket_ne (l : List (String × ℚ)) (k k' : String)
    (h : k' ≠ k) : mapFind? (mapBracket l k).2 k' = mapFind? l k' := by
  cases hf : mapFind? l k
  · simp [mapBracket, hf, mapFind?_insertSorted_ne _ _ _ _ h]
  · simp [mapBracket, hf]

/-! Specification of the extreme-scan loops. -/

theorem scanLowest_spec (bars : List Bar) (base : Nat) (fuel : Nat) :
    ∀ (i bestIdx : Nat), base ≤ bestIdx → bestIdx < i →
      (∀ j, base ≤ j → j < i →
        (bars.getD bestIdx default).low ≤ (bars.getD j default).low) →
      (∀ j, base ≤ j → j < bestIdx →
        (bars.getD bestIdx default).low < (bars.getD j default).low) →
      base ≤ scanLowest bars fuel i bestIdx ((bars.getD bestIdx default).low) ∧
      scanLowest bars fuel i bestIdx ((bars.getD bestIdx default).low) < i + fuel ∧
      (∀ j, base ≤ j → j < i + fuel →
        (bars.getD (scanLowest bars fuel i bestIdx
          ((bars.getD bestIdx default).low)) default).low
          ≤ (bars.getD j default).low) ∧
      (∀ j, base ≤ j →
        j < scanLowest bars fuel i bestIdx ((bars.getD bestIdx default).low) →
        (bars.getD (scanLowest bars fuel i bestIdx
          ((bars.getD bestIdx default).low)) default).low
          < (bars.getD j default).low) := by
  induction fuel with
  | zero =>
    intro i bestIdx h1 h2 H2 H3
    simp only [scanLowest]
    exact ⟨h1, by omega, fun j hj1 hj2 => H2 j hj1 (by omega), H3⟩
  | succ f ih =>
    intro i bestIdx h1 h2 H2 H3
    simp only [scanLowest]
    by_cases hc : (bars.getD i default).low < (bars.getD bestIdx default).low
    · rw [if_pos hc]
      have hH2 : ∀ j, base ≤ j → j < i + 1 →
          (bars.getD i default).low ≤ (bars.getD j default).low := by
        intro j hj1 hj2
        rcases Nat.lt_or_ge j i with hj | hj
        · exact le_of_lt (lt_of_lt_of_le hc (H2 j hj1 hj))
        · have : j = i := by omega
          subst this; exact le_refl _
      have hH3 : ∀ j, base ≤ j → j < i →
          (bars.getD i default).low < (bars.getD j default).low := by
        intro j hj1 hj2
        exact lt_of_lt_of_le hc (H2 j hj1 hj2)
      obtain ⟨c1, c2, c3, c4⟩ := ih (i + 1) i (by omega) (by omega) hH2 hH3
      exact ⟨c1, by omega, fun j hj1 hj2 => c3 j hj1 (by omega), c4⟩
    · rw [if_neg hc]
      push_neg at hc
      have hH2 : ∀ j, base ≤ j → j < i + 1 →
          (bars.getD bestIdx default).low ≤ (bars.getD j default).low := by
        intro j hj1 hj2
        rcases Nat.lt_or_ge j i with hj | hj
        · exact H2 j hj1 hj
        · have : j = i := by omega
          subst this; exact hc
      obtain ⟨c1, c2, c3, c4⟩ := ih (i + 1) bestIdx h1 (by omega) hH2 H3
      exact ⟨c1, by omega, fun j hj1 hj2 => c3 j hj1 (by omega), c4⟩

theorem scanHighest_spec (bars : List Bar) (base : Nat) (fuel : Nat) :
    ∀ (i bestIdx : Nat), base ≤ bestIdx → bestIdx < i →
      (∀ j, base ≤ j → j < i →
        (bars.getD j default).high ≤ (bars.getD bestIdx default).high) →
      (∀ j, base ≤ j → j < bestIdx →
        (bars.getD j default).high < (bars.getD bestIdx default).high) →
      base ≤ scanHighest bars fuel i bestIdx ((bars.getD bestIdx default).high) ∧
      scanHighest bars fuel i bestIdx ((bars.getD bestIdx default).high) < i + fuel ∧
      (∀ j, base ≤ j → j < i + fuel →
        (bars.getD j default).high ≤ (bars.getD (scanHighest bars fuel i bestIdx
          ((bars.getD bestIdx default).high)) default).high) ∧
      (∀ j, base ≤ j →
        j < scanHighest bars fuel i bestIdx ((bars.getD bestIdx default).high) →
        (bars.getD j default).high < (bars.getD (scanHighest bars fuel i bestIdx
          ((bars.getD bestIdx default).high)) default).high) := by
  induction fuel with
  | zero =>
    intro i bestIdx h1 h2 H2 H3
    simp only [scanHighest]
    exact ⟨h1, by omega, fun j hj1 hj2 => H2 j hj1 (by omega), H3⟩
  | succ f ih =>
    intro i bestIdx h1 h2 H2 H3
    simp only [scanHighest]
    by_cases hc : (bars.getD bestIdx default).high < (bars.getD i default).high
    · rw [if_pos hc]
      have hH2 : ∀ j, base ≤ j → j < i + 1 →
          (bars.getD j default).high ≤ (bars.getD i default).high := by
        intro j hj1 hj2
        rcases Nat.lt_or_ge j i with hj | hj
        · exact le_of_lt (lt_of_le_of_lt (H2 j hj1 hj) hc)
        · have : j = i := by omega
          subst this; exact le_refl _
      have hH3 : ∀ j, base ≤ j → j < i →
          (bars.getD j default).high < (bars.getD i default).high := by
        intro j hj1 hj2
        exact lt_of_le_of_lt (H2 j hj1 hj2) hc
      obtain ⟨c1, c2, c3, c4⟩ := ih (i + 1) i (by omega) (by omega) hH2 hH3
      exact ⟨c1, by omega, fun j hj1 hj2 => c3 j hj1 (by omega), c4⟩
    · rw [if_neg hc]
      push_neg at hc
      have hH2 : ∀ j, base ≤ j → j < i + 1 →
          (bars.getD j default).high ≤ (bars.getD bestIdx default).high := by
        intro j hj1 hj2
        rcases Nat.lt_or_ge j i with hj | hj
        · exact H2 j hj1 hj
        · have : j = i := by omega
          subst this; exact hc
      obtain ⟨c1, c2, c3, c4⟩ := ih (i + 1) bestIdx h1 (by omega) hH2 H3
      exact ⟨c1, by omega, fun j hj1 hj2 => c3 j hj1 (by omega), c4⟩

theorem findLowestBar_spec (bars : List Bar) (start count : Int)
    (hs : 0 ≤ start) (hc : 1 ≤ count)
    (hlen : start + count ≤ (bars.length : Int)) :
    ∃ n : Nat, findLowestBar bars start count = (n : Int) ∧
      start.toNat ≤ n ∧ n < start.toNat + count.toNat ∧
      (∀ j, start.toNat ≤ j → j < start.toNat + count.toNat →
        (bars.getD n default).low ≤ (bars.getD j default).low) ∧
      (∀ j, start.toNat ≤ j → j < n →
        (bars.getD n default).low < (bars.getD j default).low) := by
  have hguard : ¬ (start < 0 ∨ count ≤ 0 ∨ (bars.length : Int) < start + count) := by
    push_neg
    exact ⟨hs, by omega, hlen⟩
  rw [findLowestBar, if_neg hguard]
  obtain ⟨k, hk⟩ : ∃ k, count.toNat = k + 1 := ⟨count.toNat - 1, by omega⟩
  rw [hk]
  simp only [scanLowest]
  rw [if_neg (lt_irrefl ((bars.getD start.toNat default).low))]
  have hbase := scanLowest_spec bars start.toNat k (start.toNat + 1) start.toNat
    (le_refl _) (by omega)
    (by
      intro j hj1 hj2
      have : j = start.toNat := by omega
      subst this; exact le_refl _)
    (by intro j hj1 hj2; omega)
  obtain ⟨c1, c2, c3, c4⟩ := hbase
  refine ⟨_, rfl, c1, by omega, fun j hj1 hj2 => c3 j hj1 (by omega), c4⟩

theorem findHighestBar_spec (bars : List Bar) (start count : Int)
    (hs : 0 ≤ start) (hc : 1 ≤ count)
    (hlen : start + count ≤ (bars.length : Int)) :
    ∃ n : Nat, findHighestBar bars start count = (n : Int) ∧
      start.toNat ≤ n ∧ n < start.toNat + count.toNat ∧
      (∀ j, start.toNat ≤ j → j < start.toNat + count.toNat →
        (bars.getD j default).high ≤ (bars.getD n default).high) ∧
      (∀ j, start.toNat ≤ j → j < n →
        (bars.getD j default).high < (bars.getD n default).high) := by
  have hguard : ¬ (start < 0 ∨ count ≤ 0 ∨ (bars.length : Int) < start + count) := by
    push_neg
    exact ⟨hs, by omega, hlen⟩
  rw [findHighestBar, if_neg hguard]
  obtain ⟨k, hk⟩ : ∃ k, count.toNat = k + 1 := ⟨count.toNat - 1, by omega⟩
  rw [hk]
  simp only [scanHighest]
  rw [if_neg (lt_irrefl ((bars.getD start.toNat default).high))]
  have hbase := scanHighest_spec bars start.toNat k (start.toNat + 1) start.toNat
    (le_refl _) (by omega)
    (by
      intro j hj1 hj2
      have : j = start.toNat := by omega
      subst this; exact le_refl _)
    (by intro j hj1 hj2; omega)
  obtain ⟨c1, c2, c3, c4⟩ := hbase
  refine ⟨_, rfl, c1, by omega, fun j hj1 hj2 => c3 j hj1 (by omega), c4⟩

theorem findLowestBar_nonneg_inv (bars : List Bar) (start count : Int)
    (h : 0 ≤ findLowestBar bars start count) :
    0 ≤ start ∧ 1 ≤ count ∧ start + count ≤ (bars.length : Int) := by
  by_cases hg : start < 0 ∨ count ≤ 0 ∨ (bars.length : Int) < start + count
  · rw [findLowestBar, if_pos hg] at h
    omega
  · push_neg at hg
    exact ⟨hg.1, by omega, hg.2.2⟩

/-! Case analysis of `calculate`. -/

theorem calculate_cases (ind : AutoFibIndicator) (bars : List Bar) (now : String) :
    (∃ err, err ≠ "" ∧ calculate ind bars now =
      { ind with results := { emptyResults with error := err } }) ∨
    (∃ li hi : Nat,
      findLowestBar bars ind.start_bar ind.bars_back = (li : Int) ∧
      findHighestBar bars ind.start_bar ind.bars_back = (hi : Int) ∧
      0 < (bars.getD li default).low ∧
      0 < (bars.getD hi default).high ∧
      (bars.getD li default).low < (bars.getD hi default).high ∧
      calculate ind bars now = successState ind bars now li hi) := by
  by_cases h1 : (bars.length : Int) < ind.bars_back + ind.start_bar
  · left
    refine ⟨"Not enough bars", by decide, ?_⟩
    simp only [calculate]
    rw [if_pos h1]
  · by_cases h2 : findLowestBar bars ind.start_bar ind.bars_back < 0 ∨
        findHighestBar bars ind.start_bar ind.bars_back < 0
    · left
      refine ⟨"Could not find highest/lowest bar", by decide, ?_⟩
      simp only [calculate]
      rw [if_neg h1, if_pos h2]
    · by_cases h3 :
          (bars.getD (findHighestBar bars ind.start_bar ind.bars_back).toNat
            default).high ≤ 0 ∨
          (bars.getD (findLowestBar bars ind.start_bar ind.bars_back).toNat
            default).low ≤ 0 ∨
          (bars.getD (findHighestBar bars ind.start_bar ind.bars_back).toNat
            default).high ≤
            (bars.getD (findLowestBar bars ind.start_bar ind.bars_back).toNat
              default).low
      · left
        refine ⟨"Invalid price data", by decide, ?_⟩
        simp only [calculate]
        rw [if_neg h1, if_neg h2, if_pos h3]
      · right
        have h2' := h2
        have h3' := h3
        push_neg at h2' h3'
        refine ⟨(findLowestBar bars ind.start_bar ind.bars_back).toNat,
          (findHighestBar bars ind.start_bar ind.bars_back).toNat,
          (Int.toNat_of_nonneg h2'.1).symm, (Int.toNat_of_nonneg h2'.2).symm,
          h3'.2.1, lt_of_le_of_lt h3'.2.1.le h3'.2.2, h3'.2.2, ?_⟩
        simp only [calculate]
        rw [if_neg h1, if_neg h2, if_neg h3]

theorem calculate_error_free (ind : AutoFibIndicator) (bars : List Bar)
    (now : String) (h : (calculate ind bars now).results.error = "") :
    ∃ li hi : Nat,
      findLowestBar bars ind.start_bar ind.bars_back = (li : Int) ∧
      findHighestBar bars ind.start_bar ind.bars_back = (hi : Int) ∧
      0 < (bars.getD li default).low ∧
      0 < (bars.getD hi default).high ∧
      (bars.getD li default).low < (bars.getD hi default).high ∧
      calculate ind bars now = successState ind bars now li hi := by
  rcases calculate_cases ind bars now with ⟨err, hne, heq⟩ | hok
  · rw [heq] at h
    exact absurd h hne
  · exact hok

theorem calculate_bars_back (ind : AutoFibIndicator) (bars : List Bar)
    (now : String) : (calculate ind bars now).bars_back = ind.bars_back := by
  rcases calculate_cases ind bars now with ⟨err, _, heq⟩ | ⟨li, hi, _, _, _, _, _, heq⟩ <;>
    rw [heq] <;> rfl

theorem calculate_start_bar (ind : AutoFibIndicator) (bars : List Bar)
    (now : String) : (calculate ind bars now).start_bar = ind.start_bar := by
  rcases calculate_cases ind bars now with ⟨err, _, heq⟩ | ⟨li, hi, _, _, _, _, _, heq⟩ <;>
    rw [heq] <;> rfl

theorem calculate_levels_stable (ind : AutoFibIndicator) (bars : List Bar)
    (now : String)
    (h2 : mapFind? ind.fibo_level_values "level_2" ≠ none)
    (h4 : mapFind? ind.fibo_level_values "level_4" ≠ none) :
    (calculate ind bars now).fibo_level_values = ind.fibo_level_values := by
  obtain ⟨v2, hv2⟩ := Option.ne_none_iff_exists'.mp h2
  obtain ⟨v4, hv4⟩ := Option.ne_none_iff_exists'.mp h4
  rcases calculate_cases ind bars now with ⟨err, _, heq⟩ | ⟨li, hi, _, _, _, _, _, heq⟩
  · rw [heq]
  · rw [heq]
    simp only [successState]
    split
    · simp [mapBracket_of_some hv2, mapBracket_of_some hv4]
    · simp [mapBracket_of_some hv2, mapBracket_of_some hv4]

theorem calculate_results_congr (ind ind' : AutoFibIndicator) (bars : List Bar)
    (now : String)
    (hb : ind.bars_back = ind'.bars_back) (hs : ind.start_bar = ind'.start_bar)
    (hf : ind.fibo_level_values = ind'.fibo_level_values) :
    (calculate ind bars now).results = (calculate ind' bars now).results := by
  simp only [calculate, successState, hb, hs, hf]
  split
  · rfl
  · split
    · rfl
    · split
      · rfl
      · rfl

theorem calculate_extreme_error (ind : AutoFibIndicator) (bars : List Bar)
    (now : String)
    (h : (calculate ind bars now).results.error = "Could not find highest/lowest bar") :
    findLowestBar bars ind.start_bar ind.bars_back < 0 ∨
    findHighestBar bars ind.start_bar ind.bars_back < 0 := by
  by_cases h2 : findLowestBar bars ind.start_bar ind.bars_back < 0 ∨
      findHighestBar bars ind.start_bar ind.bars_back < 0
  · exact h2
  · exfalso
    by_cases h1 : (bars.length : Int) < ind.bars_back + ind.start_bar
    · simp only [calculate] at h
      rw [if_pos h1] at h
      replace h : "Not enough bars" = "Could not find highest/lowest bar" := h
      exact absurd h (by decide)
    · by_cases h3 :
          (bars.getD (findHighestBar bars ind.start_bar ind.bars_back).toNat
            default).high ≤ 0 ∨
          (bars.getD (findLowestBar bars ind.start_bar ind.bars_back).toNat
            default).low ≤ 0 ∨
          (bars.getD (findHighestBar bars ind.start_bar ind.bars_back).toNat
            default).high ≤
            (bars.getD (findLowestBar bars ind.start_bar ind.bars_back).toNat
              default).low
      · simp only [calculate] at h
        rw [if_neg h1, if_neg h2, if_pos h3] at h
        replace h : "Invalid price data" = "Could not find highest/lowest bar" := h
        exact absurd h (by decide)
      · simp only [calculate] at h
        rw [if_neg h1, if_neg h2, if_neg h3] at h
        replace h : "" = "Could not find highest/lowest bar" := h
        exact absurd h (by decide)

/-! Concrete inputs used by witnesses and counterexamples. -/

/-- Scenario A window of the spec (lows [10,8,9,11,12], highs
[15,14,16,13,17], last close 12). -/
def scenarioBars : List Bar :=
  [{ time := "01", open_ := 12, high := 15, low := 10, close := 12, volume := 1 },
   { time := "02", open_ := 12, high := 14, low := 8,  close := 12, volume := 1 },
   { time := "03", open_ := 12, high := 16, low := 9,  close := 12, volume := 1 },
   { time := "04", open_ := 12, high := 13, low := 11, close := 12, volume := 1 },
   { time := "05", open_ := 12, high := 17, low := 12, close := 12, volume := 1 }]

/-- An indicator configured as `AutoFibIndicator(5, 0)`. -/
def scenarioInd : AutoFibIndicator := mkAutoFibIndicator 5 0

/-- A single valid bar. -/
def oneBar : Bar := { time := "01", open_ := 1, high := 2, low := 1, close := 3/2, volume := 0 }

/-- An indicator whose custom level set lacks the `level_2`/`level_4` keys. -/
def c3Ind : AutoFibIndicator :=
  setFibonacciLevels (mkAutoFibIndicator 1 0) [("level_0", 0)]

/-- An indicator whose `level_2` and `level_4` ratios are equal. -/
def c4Ind : AutoFibIndicator :=
  setFibonacciLevels (mkAutoFibIndicator 1 0) [("level_2", 1/2), ("level_4", 1/2)]

/-! Claim C1. -/

/-- C1 counterexample: with one bar accumulated and no completion signal
(timeout), `getHistoricalData` does not return the partial buffer — it
returns the empty vector, indistinguishable from a successful empty fetch,
and carries no error value. -/
theorem c1_counterexample :
    getHistoricalData { historical_data := [oneBar], data_end_received := false } ≠
      [oneBar] ∧
    getHistoricalData { historical_data := [oneBar], data_end_received := false } =
      getHistoricalData { historical_data := [], data_end_received := true } := by
  constructor
  · intro h
    exact List.noConfusion (h.symm)
  · rfl

/-- C1 (amended): on timeout (completion flag still false) `getHistoricalData`
returns the empty vector, discarding any partial buffer and carrying no error
value; on completion it returns the accumulated buffer. -/
theorem c1_acquire_timeout (g : GateState) :
    (g.data_end_received = false → getHistoricalData g = []) ∧
    (g.data_end_received = true → getHistoricalData g = g.historical_data) := by
  constructor <;> intro h <;> simp [getHistoricalData, h]

/-- C1 witness: the amended theorem evaluated at concrete gate states. -/
theorem c1_acquire_timeout_witness :
    getHistoricalData { historical_data := [oneBar], data_end_received := false } = [] ∧
    getHistoricalData { historical_data := [oneBar], data_end_received := true } =
      [oneBar] :=
  ⟨(c1_acquire_timeout { historical_data := [oneBar], data_end_received := false }).1 rfl,
   (c1_acquire_timeout { historical_data := [oneBar], data_end_received := true }).2 rfl⟩

/-! Claim C2. -/

/-- C2 counterexample: after an empty completed stream, `runIndicator`
reports `"No data received"`; it does not invoke the Engine, whose error for
an empty window would be `"Not enough bars"` (InsufficientData). -/
theorem c2_counterexample :
    getHistoricalData { historical_data := [], data_end_received := true } = [] ∧
    (runIndicatorPostFetch (mkAutoFibIndicator 20 0)
      (getHistoricalData { historical_data := [], data_end_received := true })
      "T").1.error = "No data received" ∧
    (calculate (mkAutoFibIndicator 20 0) [] "T").results.error = "Not enough bars" ∧
    ("No data received" : String) ≠ "Not enough bars" := by
  refine ⟨rfl, rfl, ?_, by decide⟩
  simp only [calculate]
  rw [if_pos (by norm_num [mkAutoFibIndicator])]

/-- C2 (amended): a stream completed with zero bars makes `acquire` return
the empty sequence successfully, but `runIndicator` then returns the error
`"No data received"` without invoking the Fibonacci Engine (the indicator
state is untouched); the Engine's `InsufficientData` error is not produced. -/
theorem c2_empty_stream (ind : AutoFibIndicator) (now : String) :
    getHistoricalData { historical_data := [], data_end_received := true } = [] ∧
    (runIndicatorPostFetch ind
      (getHistoricalData { historical_data := [], data_end_received := true })
      now).1.error = "No data received" ∧
    (runIndicatorPostFetch ind
      (getHistoricalData { historical_data := [], data_end_received := true })
      now).2 = ind :=
  ⟨rfl, rfl, rfl⟩

/-! Claim C3. -/

/-- C3 counterexample: with a configuration lacking the `level_2`/`level_4`
keys, the first `calculate` call mutates the configuration (via the
`operator[]` default-inserts in the golden-zone computation), so a second
call on the identical window and clock reading returns a different result
(its level map gains entries). -/
theorem c3_counterexample :
    (calculate (calculate c3Ind [oneBar] "T") [oneBar] "T").results ≠
      (calculate c3Ind [oneBar] "T").results := by
  intro hEq
  have h1 : mapFind? (calculate c3Ind [oneBar] "T").results.fibo_levels "level_2" =
      none := by
    norm_num +decide [calculate, successState, findLowestBar, findHighestBar,
      scanLowest, scanHighest, mkAutoFibIndicator, setFibonacciLevels, c3Ind,
      oneBar, mapBracket, mapFind?, mapInsertSorted, int_toNat_lit]
  have h2 : mapFind?
      (calculate (calculate c3Ind [oneBar] "T") [oneBar] "T").results.fibo_levels
      "level_2" = some 2 := by
    norm_num +decide [calculate, successState, findLowestBar, findHighestBar,
      scanLowest, scanHighest, mkAutoFibIndicator, setFibonacciLevels, c3Ind,
      oneBar, mapBracket, mapFind?, mapInsertSorted, int_toNat_lit]
  rw [hEq, h1] at h2
  exact Option.noConfusion h2

/-- C3 (amended): the result of `calculate` is a pure function of the
configuration (`bars_back`, `start_bar`, `fibo_level_values`), the bar
window, and the wall clock — the diagnostic cache and the stored previous
results never influence it; and provided the configuration contains entries
for the keys `level_2` and `level_4` (as the default configuration does),
two consecutive `calculate` calls on the identical window with the same
clock reading return identical results. -/
theorem c3_idempotent (ind indAlt : AutoFibIndicator) (bars : List Bar)
    (now : String)
    (hb : indAlt.bars_back = ind.bars_back)
    (hs : indAlt.start_bar = ind.start_bar)
    (hf : indAlt.fibo_level_values = ind.fibo_level_values)
    (h2 : mapFind? ind.fibo_level_values "level_2" ≠ none)
    (h4 : mapFind? ind.fibo_level_values "level_4" ≠ none) :
    (calculate indAlt bars now).results = (calculate ind bars now).results ∧
    (calculate (calculate ind bars now) bars now).results =
      (calculate ind bars now).results := by
  constructor
  · exact calculate_results_congr indAlt ind bars now hb hs hf
  · exact calculate_results_congr _ _ bars now
      (calculate_bars_back ind bars now) (calculate_start_bar ind bars now)
      (calculate_levels_stable ind bars now h2 h4)

/-- C3 witness: the amended theorem at the Scenario A window, with the
diagnostic cache of the alternative state perturbed. -/
theorem c3_idempotent_witness :
    (({ scenarioInd with last_lowest_bar := 7, last_high_value := 99 }
        : AutoFibIndicator).bars_back = scenarioInd.bars_back ∧
      ({ scenarioInd with last_lowest_bar := 7, last_high_value := 99 }
        : AutoFibIndicator).start_bar = scenarioInd.start_bar ∧
      ({ scenarioInd with last_lowest_bar := 7, last_high_value := 99 }
        : AutoFibIndicator).fibo_level_values = scenarioInd.fibo_level_values ∧
      mapFind? scenarioInd.fibo_level_values "level_2" ≠ none ∧
      mapFind? scenarioInd.fibo_level_values "level_4" ≠ none) ∧
    ((calculate { scenarioInd with last_lowest_bar := 7, last_high_value := 99 }
        scenarioBars "T").results = (calculate scenarioInd scenarioBars "T").results ∧
      (calculate (calculate scenarioInd scenarioBars "T") scenarioBars "T").results =
        (calculate scenarioInd scenarioBars "T").results) :=
  ⟨⟨rfl, rfl, rfl, by decide, by decide⟩,
   c3_idempotent scenarioInd _ scenarioBars "T" rfl rfl rfl
     (by decide) (by decide)⟩

/-! Claim C4. -/

/-- C4 counterexample: a configuration installed via `setFibonacciLevels`
with equal `level_2` and `level_4` ratios yields an error-free result whose
golden zone is degenerate (`golden_zone_low = golden_zone_high`), violating
the strict inequality. -/
theorem c4_counterexample :
    (calcResults c4Ind [oneBar] "T").error = "" ∧
    ¬ ((calcResults c4Ind [oneBar] "T").golden_zone_low <
       (calcResults c4Ind [oneBar] "T").golden_zone_high) := by
  constructor <;>
    norm_num +decide [calcResults, calculate, successState, findLowestBar,
      findHighestBar, scanLowest, scanHighest, mkAutoFibIndicator,
      setFibonacciLevels, c4Ind, oneBar, mapBracket, mapFind?, mapInsertSorted,
      int_toNat_lit]

/-- C4 (amended): for every bar window and configuration, whenever
`calculate` returns with no error and the configured ratio read for
`level_2` (0 when the key is absent) is strictly less than the one for
`level_4`, the result satisfies
`golden_zone_low < golden_zone_high` strictly; the default configuration
(0.382 < 0.618) satisfies this side condition. -/
theorem c4_goldenZone (ind : AutoFibIndicator) (bars : List Bar) (now : String)
    (h : (calcResults ind bars now).error = "")
    (hlt : (mapFind? ind.fibo_level_values "level_2").getD 0 <
           (mapFind? ind.fibo_level_values "level_4").getD 0) :
    (calcResults ind bars now).golden_zone_low <
      (calcResults ind bars now).golden_zone_high := by
  obtain ⟨li, hi, hfl, hfh, hl0, hh0, hlh, heq⟩ :=
    calculate_error_free ind bars now h
  have hrng : 0 < (bars.getD hi default).high - (bars.getD li default).low := by
    linarith
  have hmul := mul_lt_mul_of_pos_left hlt hrng
  unfold calcResults
  rw [heq]
  simp only [successState]
  have e2 : (mapBracket ind.fibo_level_values "level_2").1 =
      (mapFind? ind.fibo_level_values "level_2").getD 0 :=
    mapBracket_fst _ _
  have e4 : (mapBracket (mapBracket ind.fibo_level_values "level_2").2 "level_4").1 =
      (mapFind? ind.fibo_level_values "level_4").getD 0 := by
    rw [mapBracket_fst, mapFind?_mapBracket_ne _ _ _ (by decide)]
  have e4b : (mapBracket ind.fibo_level_values "level_4").1 =
      (mapFind? ind.fibo_level_values "level_4").getD 0 :=
    mapBracket_fst _ _
  have e2b : (mapBracket (mapBracket ind.fibo_level_values "level_4").2 "level_2").1 =
      (mapFind? ind.fibo_level_values "level_2").getD 0 := by
    rw [mapBracket_fst, mapFind?_mapBracket_ne _ _ _ (by decide)]
  rw [e2, e4, e4b, e2b]
  by_cases hP : ((bars.getD li default).time.data < (bars.getD hi default).time.data)
  · rw [decide_eq_true hP, if_pos rfl]
    dsimp only
    linarith
  · rw [decide_eq_false hP, if_neg (by decide)]
    dsimp only
    linarith

/-- C4 witness: the amended theorem at the Scenario A window with the
default ratio configuration. -/
theorem c4_goldenZone_witness :
    ((calcResults scenarioInd scenarioBars "T").error = "" ∧
      (mapFind? scenarioInd.fibo_level_values "level_2").getD 0 <
        (mapFind? scenarioInd.fibo_level_values "level_4").getD 0) ∧
    (calcResults scenarioInd scenarioBars "T").golden_zone_low <
      (calcResults scenarioInd scenarioBars "T").golden_zone_high :=
  ⟨⟨by
      norm_num +decide [calcResults, calculate, successState, findLowestBar,
        findHighestBar, scanLowest, scanHighest, mkAutoFibIndicator,
        defaultLevels, scenarioInd, scenarioBars, mapBracket, mapFind?,
        mapInsertSorted, int_toNat_lit],
    by norm_num +decide [scenarioInd, mkAutoFibIndicator, defaultLevels, mapFind?]⟩,
   c4_goldenZone scenarioInd scenarioBars "T"
    (by
      norm_num +decide [calcResults, calculate, successState, findLowestBar,
        findHighestBar, scanLowest, scanHighest, mkAutoFibIndicator,
        defaultLevels, scenarioInd, scenarioBars, mapBracket, mapFind?,
        mapInsertSorted, int_toNat_lit])
    (by norm_num +decide [scenarioInd, mkAutoFibIndicator, defaultLevels, mapFind?])⟩

/-! Claim C5. -/

/-- C5: for a window with `0 ≤ startBar`, `1 ≤ barsBack` and
`startBar + barsBack ≤ length`, `findLowestBar` returns the first index of a
minimal `low` in `[startBar, startBar + barsBack)` (only strictly lesser
values replace the running extreme), `findHighestBar` the first index of a
maximal `high` (only strictly greater values replace), neither returns the
`-1` failure value, and `calculate` can then never produce the
"Could not find highest/lowest bar" (`ExtremeNotFound`) error. -/
theorem c5_findExtremes (bars : List Bar) (startBar barsBack : Int)
    (hs : 0 ≤ startBar) (hb : 1 ≤ barsBack)
    (hlen : startBar + barsBack ≤ (bars.length : Int)) :
    (∃ n : Nat, findLowestBar bars startBar barsBack = (n : Int) ∧
      startBar.toNat ≤ n ∧ n < startBar.toNat + barsBack.toNat ∧
      (∀ j, startBar.toNat ≤ j → j < startBar.toNat + barsBack.toNat →
        (bars.getD n default).low ≤ (bars.getD j default).low) ∧
      (∀ j, startBar.toNat ≤ j → j < n →
        (bars.getD n default).low < (bars.getD j default).low)) ∧
    (∃ n : Nat, findHighestBar bars startBar barsBack = (n : Int) ∧
      startBar.toNat ≤ n ∧ n < startBar.toNat + barsBack.toNat ∧
      (∀ j, startBar.toNat ≤ j → j < startBar.toNat + barsBack.toNat →
        (bars.getD j default).high ≤ (bars.getD n default).high) ∧
      (∀ j, startBar.toNat ≤ j → j < n →
        (bars.getD j default).high < (bars.getD n default).high)) ∧
    findLowestBar bars startBar barsBack ≠ -1 ∧
    findHighestBar bars startBar barsBack ≠ -1 ∧
    (∀ (ind : AutoFibIndicator) (now : String),
      ind.start_bar = startBar → ind.bars_back = barsBack →
      (calculate ind bars now).results.error ≠ "Could not find highest/lowest bar") := by
  obtain ⟨n1, hn1, ha1, hb1, hc1, hd1⟩ :=
    findLowestBar_spec bars startBar barsBack hs hb hlen
  obtain ⟨n2, hn2, ha2, hb2, hc2, hd2⟩ :=
    findHighestBar_spec bars startBar barsBack hs hb hlen
  refine ⟨⟨n1, hn1, ha1, hb1, hc1, hd1⟩, ⟨n2, hn2, ha2, hb2, hc2, hd2⟩,
    ?_, ?_, ?_⟩
  · rw [hn1]; omega
  · rw [hn2]; omega
  · intro ind now hsb hbb hcontra
    have hdisj := calculate_extreme_error ind bars now hcontra
    rw [hsb, hbb] at hdisj
    rcases hdisj with hneg | hneg
    · rw [hn1] at hneg; omega
    · rw [hn2] at hneg; omega

/-- C5 witness: the theorem at the Scenario A window (`startBar = 0`,
`barsBack = 5`). -/
theorem c5_findExtremes_witness :
    ((0 : Int) ≤ 0 ∧ (1 : Int) ≤ 5 ∧ (0 : Int) + 5 ≤ (scenarioBars.length : Int)) ∧
    ((∃ n : Nat, findLowestBar scenarioBars 0 5 = (n : Int) ∧
      (0 : Int).toNat ≤ n ∧ n < (0 : Int).toNat + (5 : Int).toNat ∧
      (∀ j, (0 : Int).toNat ≤ j → j < (0 : Int).toNat + (5 : Int).toNat →
        (scenarioBars.getD n default).low ≤ (scenarioBars.getD j default).low) ∧
      (∀ j, (0 : Int).toNat ≤ j → j < n →
        (scenarioBars.getD n default).low < (scenarioBars.getD j default).low)) ∧
    (∃ n : Nat, findHighestBar scenarioBars 0 5 = (n : Int) ∧
      (0 : Int).toNat ≤ n ∧ n < (0 : Int).toNat + (5 : Int).toNat ∧
      (∀ j, (0 : Int).toNat ≤ j → j < (0 : Int).toNat + (5 : Int).toNat →
        (scenarioBars.getD j default).high ≤ (scenarioBars.getD n default).high) ∧
      (∀ j, (0 : Int).toNat ≤ j → j < n →
        (scenarioBars.getD j default).high < (scenarioBars.getD n default).high)) ∧
    findLowestBar scenarioBars 0 5 ≠ -1 ∧
    findHighestBar scenarioBars 0 5 ≠ -1 ∧
    (∀ (ind : AutoFibIndicator) (now : String),
      ind.start_bar = 0 → ind.bars_back = 5 →
      (calculate ind scenarioBars now).results.error ≠
        "Could not find highest/lowest bar")) :=
  ⟨⟨by norm_num, by norm_num, by norm_num [scenarioBars]⟩,
   c5_findExtremes scenarioBars 0 5 (by norm_num) (by norm_num)
     (by norm_num [scenarioBars])⟩

/-! Claim C6. -/

/-- C6: for every error-free result, each configured ratio maps to
`low + range * ratio` when the trend is `BULLISH` and to
`high - range * ratio` when `BEARISH`; under the default configuration the
ratio-0 level (`level_0`) equals `low` and the ratio-1 level (`level_7`)
equals `high` when bullish, and conversely when bearish. -/
theorem c6_levels (ind : AutoFibIndicator) (bars : List Bar) (now : String)
    (h : (calcResults ind bars now).error = "") :
    (∀ name ratio, mapFind? ind.fibo_level_values name = some ratio →
      ((calcResults ind bars now).trend = "BULLISH" →
        mapFind? (calcResults ind bars now).fibo_levels name =
          some ((calcResults ind bars now).low_value +
            (calcResults ind bars now).fibo_range * ratio)) ∧
      ((calcResults ind bars now).trend = "BEARISH" →
        mapFind? (calcResults ind bars now).fibo_levels name =
          some ((calcResults ind bars now).high_value -
            (calcResults ind bars now).fibo_range * ratio))) ∧
    (ind.fibo_level_values = defaultLevels →
      ((calcResults ind bars now).trend = "BULLISH" →
        mapFind? (calcResults ind bars now).fibo_levels "level_0" =
          some ((calcResults ind bars now).low_value) ∧
        mapFind? (calcResults ind bars now).fibo_levels "level_7" =
          some ((calcResults ind bars now).high_value)) ∧
      ((calcResults ind bars now).trend = "BEARISH" →
        mapFind? (calcResults ind bars now).fibo_levels "level_0" =
          some ((calcResults ind bars now).high_value) ∧
        mapFind? (calcResults ind bars now).fibo_levels "level_7" =
          some ((calcResults ind bars now).low_value))) := by
  obtain ⟨li, hi, _, _, _, _, _, heq⟩ := calculate_error_free ind bars now h
  unfold calcResults
  rw [heq]
  simp only [successState]
  by_cases hP : ((bars.getD li default).time.data < (bars.getD hi default).time.data)
  · rw [decide_eq_true hP]
    repeat rw [if_pos (rfl : true = true)]
    constructor
    · intro name ratio hfind
      constructor
      · intro _
        rw [mapFind?_map (fun x => (bars.getD li default).low +
            ((bars.getD hi default).high - (bars.getD li default).low) * x)
          ind.fibo_level_values name, hfind]
        rfl
      · intro htr
        exact absurd htr (by decide)
    · intro hdef
      constructor
      · intro _
        constructor
        · rw [hdef, mapFind?_map (fun x => (bars.getD li default).low +
              ((bars.getD hi default).high - (bars.getD li default).low) * x)
            defaultLevels "level_0"]
          norm_num +decide [mapFind?, defaultLevels]
          try ring
        · rw [hdef, mapFind?_map (fun x => (bars.getD li default).low +
              ((bars.getD hi default).high - (bars.getD li default).low) * x)
            defaultLevels "level_7"]
          norm_num +decide [mapFind?, defaultLevels]
          try ring
      · intro htr
        exact absurd htr (by decide)
  · rw [decide_eq_false hP]
    repeat rw [if_neg (by decide : ¬ (false = true))]
    constructor
    · intro name ratio hfind
      constructor
      · intro htr
        exact absurd htr (by decide)
      · intro _
        rw [mapFind?_map (fun x => (bars.getD hi default).high -
            ((bars.getD hi default).high - (bars.getD li default).low) * x)
          ind.fibo_level_values name, hfind]
        rfl
    · intro hdef
      constructor
      · intro htr
        exact absurd htr (by decide)
      · intro _
        constructor
        · rw [hdef, mapFind?_map (fun x => (bars.getD hi default).high -
              ((bars.getD hi default).high - (bars.getD li default).low) * x)
            defaultLevels "level_0"]
          norm_num +decide [mapFind?, defaultLevels]
          try ring
        · rw [hdef, mapFind?_map (fun x => (bars.getD hi default).high -
              ((bars.getD hi default).high - (bars.getD li default).low) * x)
            defaultLevels "level_7"]
          norm_num +decide [mapFind?, defaultLevels]
          try ring

/-- C6 witness: the theorem at the Scenario A window with the default
configuration. -/
theorem c6_levels_witness :
    (calcResults scenarioInd scenarioBars "T").error = "" ∧
    ((∀ name ratio, mapFind? scenarioInd.fibo_level_values name = some ratio →
      ((calcResults scenarioInd scenarioBars "T").trend = "BULLISH" →
        mapFind? (calcResults scenarioInd scenarioBars "T").fibo_levels name =
          some ((calcResults scenarioInd scenarioBars "T").low_value +
            (calcResults scenarioInd scenarioBars "T").fibo_range * ratio)) ∧
      ((calcResults scenarioInd scenarioBars "T").trend = "BEARISH" →
        mapFind? (calcResults scenarioInd scenarioBars "T").fibo_levels name =
          some ((calcResults scenarioInd scenarioBars "T").high_value -
            (calcResults scenarioInd scenarioBars "T").fibo_range * ratio))) ∧
    (scenarioInd.fibo_level_values = defaultLevels →
      ((calcResults scenarioInd scenarioBars "T").trend = "BULLISH" →
        mapFind? (calcResults scenarioInd scenarioBars "T").fibo_levels "level_0" =
          some ((calcResults scenarioInd scenarioBars "T").low_value) ∧
        mapFind? (calcResults scenarioInd scenarioBars "T").fibo_levels "level_7" =
          some ((calcResults scenarioInd scenarioBars "T").high_value)) ∧
      ((calcResults scenarioInd scenarioBars "T").trend = "BEARISH" →
        mapFind? (calcResults scenarioInd scenarioBars "T").fibo_levels "level_0" =
          some ((calcResults scenarioInd scenarioBars "T").high_value) ∧
        mapFind? (calcResults scenarioInd scenarioBars "T").fibo_levels "level_7" =
          some ((calcResults scenarioInd scenarioBars "T").low_value)))) :=
  ⟨by
    norm_num +decide [calcResults, calculate, successState, findLowestBar,
      findHighestBar, scanLowest, scanHighest, mkAutoFibIndicator, defaultLevels,
      scenarioInd, scenarioBars, mapBracket, mapFind?, mapInsertSorted,
      int_toNat_lit],
   c6_levels scenarioInd scenarioBars "T"
    (by
      norm_num +decide [calcResults, calculate, successState, findLowestBar,
        findHighestBar, scanLowest, scanHighest, mkAutoFibIndicator, defaultLevels,
        scenarioInd, scenarioBars, mapBracket, mapFind?, mapInsertSorted,
        int_toNat_lit])⟩

/-! Claim C7. -/

/-- C7: for every error-free result, the trend is `BULLISH` exactly when the
time label of the high bar sorts strictly after the time label of the low bar
in the lexicographic character order used for the timestamp strings (the
source compares the formatted labels with `std::string` `operator>`); an
equal or earlier high-bar label yields `BEARISH`. -/
theorem c7_trend (ind : AutoFibIndicator) (bars : List Bar) (now : String)
    (h : (calcResults ind bars now).error = "") :
    ((calcResults ind bars now).trend = "BULLISH" ∨
      (calcResults ind bars now).trend = "BEARISH") ∧
    ((calcResults ind bars now).trend = "BULLISH" ↔
      (calcResults ind bars now).low_time.data <
        (calcResults ind bars now).high_time.data) := by
  obtain ⟨li, hi, _, _, _, _, _, heq⟩ := calculate_error_free ind bars now h
  unfold calcResults
  rw [heq]
  simp only [successState]
  by_cases hP : ((bars.getD li default).time.data < (bars.getD hi default).time.data)
  · rw [decide_eq_true hP]
    repeat rw [if_pos (rfl : true = true)]
    exact ⟨Or.inl rfl, Iff.intro (fun _ => hP) (fun _ => rfl)⟩
  · rw [decide_eq_false hP]
    repeat rw [if_neg (by decide : ¬ (false = true))]
    refine ⟨Or.inr rfl, ?_, ?_⟩
    · intro hx
      exact absurd hx (by decide)
    · intro hx
      exact absurd hx hP

/-- C7 witness: the theorem at the Scenario A window (low at time "02",
high at time "05", so the trend is bullish there). -/
theorem c7_trend_witness :
    (calcResults scenarioInd scenarioBars "T").error = "" ∧
    (((calcResults scenarioInd scenarioBars "T").trend = "BULLISH" ∨
      (calcResults scenarioInd scenarioBars "T").trend = "BEARISH") ∧
    ((calcResults scenarioInd scenarioBars "T").trend = "BULLISH" ↔
      (calcResults scenarioInd scenarioBars "T").low_time.data <
        (calcResults scenarioInd scenarioBars "T").high_time.data)) :=
  ⟨by
    norm_num +decide [calcResults, calculate, successState, findLowestBar,
      findHighestBar, scanLowest, scanHighest, mkAutoFibIndicator, defaultLevels,
      scenarioInd, scenarioBars, mapBracket, mapFind?, mapInsertSorted,
      int_toNat_lit],
   c7_trend scenarioInd scenarioBars "T"
    (by
      norm_num +decide [calcResults, calculate, successState, findLowestBar,
        findHighestBar, scanLowest, scanHighest, mkAutoFibIndicator, defaultLevels,
        scenarioInd, scenarioBars, mapBracket, mapFind?, mapInsertSorted,
        int_toNat_lit])⟩

/-! Claim C8. -/

/-- C8: for every indicator state left by a `calculate` call, `getSignal`
returns `BUY` iff the trend is `BULLISH` and the price is in the golden zone,
`SELL` iff the trend is `BEARISH` and the price is in the golden zone,
`HOLD` iff the price is not in the golden zone and no error is set, and
`NO_DATA` iff the error field is set. -/
theorem c8_getSignal (ind : AutoFibIndicator) (bars : List Bar) (now : String) :
    (getSignal (calculate ind bars now) = "NO_DATA" ↔
      ¬ (calculate ind bars now).results.error = "") ∧
    (getSignal (calculate ind bars now) = "BUY" ↔
      ((calculate ind bars now).results.trend = "BULLISH" ∧
        (calculate ind bars now).results.price_in_golden_zone = true)) ∧
    (getSignal (calculate ind bars now) = "SELL" ↔
      ((calculate ind bars now).results.trend = "BEARISH" ∧
        (calculate ind bars now).results.price_in_golden_zone = true)) ∧
    (getSignal (calculate ind bars now) = "HOLD" ↔
      ((calculate ind bars now).results.price_in_golden_zone = false ∧
        (calculate ind bars now).results.error = "")) := by
  rcases calculate_cases ind bars now with ⟨err, hne, heq⟩ |
    ⟨li, hi, _, _, _, _, _, heq⟩
  · rw [heq]
    have herr : ({ ind with results := { emptyResults with error := err } }
        : AutoFibIndicator).results.error = err := rfl
    have htr : ({ ind with results := { emptyResults with error := err } }
        : AutoFibIndicator).results.trend = "" := rfl
    have hgz : ({ ind with results := { emptyResults with error := err } }
        : AutoFibIndicator).results.price_in_golden_zone = false := rfl
    have hsig : getSignal { ind with results := { emptyResults with error := err } } =
        "NO_DATA" := by
      simp only [getSignal, herr]
      rw [if_pos hne]
    rw [hsig, herr, htr, hgz]
    refine ⟨by simp [hne], ?_, ?_, ?_⟩
    · constructor
      · intro hx; exact absurd hx (by decide)
      · rintro ⟨hx, -⟩; exact absurd hx (by decide)
    · constructor
      · intro hx; exact absurd hx (by decide)
      · rintro ⟨hx, -⟩; exact absurd hx (by decide)
    · constructor
      · intro hx; exact absurd hx (by decide)
      · rintro ⟨-, hx⟩; exact absurd hx hne
  · rw [heq]
    have herr : (successState ind bars now li hi).results.error = "" := rfl
    by_cases hP : ((bars.getD li default).time.data < (bars.getD hi default).time.data)
    · have htr : (successState ind bars now li hi).results.trend = "BULLISH" := by
        simp only [successState]
        rw [decide_eq_true hP]
        rw [if_pos (rfl : true = true)]
      cases hgz : (successState ind bars now li hi).results.price_in_golden_zone
      · have hsig : getSignal (successState ind bars now li hi) = "HOLD" := by
          simp only [getSignal]
          rw [herr, hgz]
          simp
        rw [hsig, herr, htr]
        exact ⟨by decide, by decide, by decide, by decide⟩
      · have hsig : getSignal (successState ind bars now li hi) = "BUY" := by
          simp only [getSignal]
          rw [herr, htr, hgz]
          simp
        rw [hsig, herr, htr]
        exact ⟨by decide, by decide, by decide, by decide⟩
    · have htr : (successState ind bars now li hi).results.trend = "BEARISH" := by
        simp only [successState]
        rw [decide_eq_false hP]
        rw [if_neg (by decide : ¬ (false = true))]
      cases hgz : (successState ind bars now li hi).results.price_in_golden_zone
      · have hsig : getSignal (successState ind bars now li hi) = "HOLD" := by
          simp only [getSignal]
          rw [herr, hgz]
          simp
        rw [hsig, herr, htr]
        exact ⟨by decide, by decide, by decide, by decide⟩
      · have hsig : getSignal (successState ind bars now li hi) = "SELL" := by
          simp only [getSignal]
          rw [herr, htr, hgz]
          simp
        rw [hsig, herr, htr]
        exact ⟨by decide, by decide, by decide, by decide⟩

/-! Claim C9. -/

/-- C9: for every error-free result, `current_price` is the close of the last
bar of the supplied window, and `price_in_golden_zone` holds exactly when
`golden_zone_low ≤ current_price ≤ golden_zone_high` with both boundaries
inclusive; in particular a price exactly on `golden_zone_low` is inside the
zone (given the zone is non-degenerate, `golden_zone_low ≤ golden_zone_high`). -/
theorem c9_price (ind : AutoFibIndicator) (bars : List Bar) (now : String)
    (h : (calcResults ind bars now).error = "") :
    (calcResults ind bars now).current_price = (bars.getLastD default).close ∧
    ((calcResults ind bars now).price_in_golden_zone = true ↔
      ((calcResults ind bars now).golden_zone_low ≤
        (calcResults ind bars now).current_price ∧
       (calcResults ind bars now).current_price ≤
        (calcResults ind bars now).golden_zone_high)) ∧
    ((calcResults ind bars now).current_price =
        (calcResults ind bars now).golden_zone_low →
     (calcResults ind bars now).golden_zone_low ≤
        (calcResults ind bars now).golden_zone_high →
     (calcResults ind bars now).price_in_golden_zone = true) := by
  obtain ⟨li, hi, _, _, _, _, _, heq⟩ := calculate_error_free ind bars now h
  unfold calcResults
  rw [heq]
  simp only [successState]
  refine ⟨by trivial, ⟨fun hx => of_decide_eq_true hx, fun hx => decide_eq_true hx⟩, ?_⟩
  intro h1 h2
  apply decide_eq_true
  constructor
  · rw [h1]
  · rw [h1]
    exact h2

/-- C9 witness: the theorem at the Scenario A window. -/
theorem c9_price_witness :
    (calcResults scenarioInd scenarioBars "T").error = "" ∧
    ((calcResults scenarioInd scenarioBars "T").current_price =
        (scenarioBars.getLastD default).close ∧
    ((calcResults scenarioInd scenarioBars "T").price_in_golden_zone = true ↔
      ((calcResults scenarioInd scenarioBars "T").golden_zone_low ≤
        (calcResults scenarioInd scenarioBars "T").current_price ∧
       (calcResults scenarioInd scenarioBars "T").current_price ≤
        (calcResults scenarioInd scenarioBars "T").golden_zone_high)) ∧
    ((calcResults scenarioInd scenarioBars "T").current_price =
        (calcResults scenarioInd scenarioBars "T").golden_zone_low →
     (calcResults scenarioInd scenarioBars "T").golden_zone_low ≤
        (calcResults scenarioInd scenarioBars "T").golden_zone_high →
     (calcResults scenarioInd scenarioBars "T").price_in_golden_zone = true)) :=
  ⟨by
    norm_num +decide [calcResults, calculate, successState, findLowestBar,
      findHighestBar, scanLowest, scanHighest, mkAutoFibIndicator, defaultLevels,
      scenarioInd, scenarioBars, mapBracket, mapFind?, mapInsertSorted,
      int_toNat_lit],
   c9_price scenarioInd scenarioBars "T"
    (by
      norm_num +decide [calcResults, calculate, successState, findLowestBar,
        findHighestBar, scanLowest, scanHighest, mkAutoFibIndicator, defaultLevels,
        scenarioInd, scenarioBars, mapBracket, mapFind?, mapInsertSorted,
        int_toNat_lit])⟩

/-! Claim C10. -/

/-- C10: for every error-free result, the computed level prices are strictly
monotone in the configured ratios — increasing when the trend is `BULLISH`
and decreasing when `BEARISH` (the range `high - low` is positive). -/
theorem c10_monotone (ind : AutoFibIndicator) (bars : List Bar) (now : String)
    (h : (calcResults ind bars now).error = "")
    (n1 n2 : String) (r1 r2 : ℚ)
    (hn1 : mapFind? ind.fibo_level_values n1 = some r1)
    (hn2 : mapFind? ind.fibo_level_values n2 = some r2)
    (hr : r1 < r2) :
    ∃ p1 p2 : ℚ,
      mapFind? (calcResults ind bars now).fibo_levels n1 = some p1 ∧
      mapFind? (calcResults ind bars now).fibo_levels n2 = some p2 ∧
      ((calcResults ind bars now).trend = "BULLISH" → p1 < p2) ∧
      ((calcResults ind bars now).trend = "BEARISH" → p2 < p1) := by
  obtain ⟨li, hi, _, _, hl0, hh0, hlh, heq⟩ := calculate_error_free ind bars now h
  have hrng : 0 < (bars.getD hi default).high - (bars.getD li default).low := by
    linarith
  have hmul := mul_lt_mul_of_pos_left hr hrng
  unfold calcResults
  rw [heq]
  simp only [successState]
  by_cases hP : ((bars.getD li default).time.data < (bars.getD hi default).time.data)
  · rw [decide_eq_true hP]
    repeat rw [if_pos (rfl : true = true)]
    refine ⟨(bars.getD li default).low +
        ((bars.getD hi default).high - (bars.getD li default).low) * r1,
      (bars.getD li default).low +
        ((bars.getD hi default).high - (bars.getD li default).low) * r2,
      ?_, ?_, ?_, ?_⟩
    · rw [mapFind?_map (fun x => (bars.getD li default).low +
          ((bars.getD hi default).high - (bars.getD li default).low) * x)
        ind.fibo_level_values n1, hn1]
      rfl
    · rw [mapFind?_map (fun x => (bars.getD li default).low +
          ((bars.getD hi default).high - (bars.getD li default).low) * x)
        ind.fibo_level_values n2, hn2]
      rfl
    · intro _
      exact add_lt_add_left hmul _
    · intro htr
      exact absurd htr (by decide)
  · rw [decide_eq_false hP]
    repeat rw [if_neg (by decide : ¬ (false = true))]
    refine ⟨(bars.getD hi default).high -
        ((bars.getD hi default).high - (bars.getD li default).low) * r1,
      (bars.getD hi default).high -
        ((bars.getD hi default).high - (bars.getD li default).low) * r2,
      ?_, ?_, ?_, ?_⟩
    · rw [mapFind?_map (fun x => (bars.getD hi default).high -
          ((bars.getD hi default).high - (bars.getD li default).low) * x)
        ind.fibo_level_values n1, hn1]
      rfl
    · rw [mapFind?_map (fun x => (bars.getD hi default).high -
          ((bars.getD hi default).high - (bars.getD li default).low) * x)
        ind.fibo_level_values n2, hn2]
      rfl
    · intro htr
      exact absurd htr (by decide)
    · intro _
      exact sub_lt_sub_left hmul _

/-- C10 witness: the theorem at the Scenario A window, comparing the
`level_2` (0.382) and `level_4` (0.618) ratios of the default set. -/
theorem c10_monotone_witness :
    ((calcResults scenarioInd scenarioBars "T").error = "" ∧
      mapFind? scenarioInd.fibo_level_values "level_2" = some (382/1000) ∧
      mapFind? scenarioInd.fibo_level_values "level_4" = some (618/1000) ∧
      (382/1000 : ℚ) < 618/1000) ∧
    (∃ p1 p2 : ℚ,
      mapFind? (calcResults scenarioInd scenarioBars "T").fibo_levels "level_2" =
        some p1 ∧
      mapFind? (calcResults scenarioInd scenarioBars "T").fibo_levels "level_4" =
        some p2 ∧
      ((calcResults scenarioInd scenarioBars "T").trend = "BULLISH" → p1 < p2) ∧
      ((calcResults scenarioInd scenarioBars "T").trend = "BEARISH" → p2 < p1)) :=
  ⟨⟨by
      norm_num +decide [calcResults, calculate, successState, findLowestBar,
        findHighestBar, scanLowest, scanHighest, mkAutoFibIndicator, defaultLevels,
        scenarioInd, scenarioBars, mapBracket, mapFind?, mapInsertSorted,
        int_toNat_lit],
    by norm_num +decide [scenarioInd, mkAutoFibIndicator, defaultLevels, mapFind?],
    by norm_num +decide [scenarioInd, mkAutoFibIndicator, defaultLevels, mapFind?],
    by norm_num⟩,
   c10_monotone scenarioInd scenarioBars "T"
    (by
      norm_num +decide [calcResults, calculate, successState, findLowestBar,
        findHighestBar, scanLowest, scanHighest, mkAutoFibIndicator, defaultLevels,
        scenarioInd, scenarioBars, mapBracket, mapFind?, mapInsertSorted,
        int_toNat_lit])
    "level_2" "level_4" (382/1000) (618/1000)
    (by norm_num +decide [scenarioInd, mkAutoFibIndicator, defaultLevels, mapFind?])
    (by norm_num +decide [scenarioInd, mkAutoFibIndicator, defaultLevels, mapFind?])
    (by norm_num)⟩

/-- An indicator whose `level_2` and `level_4` ratios are swapped, making the
golden zone bounds inverted (`golden_zone_low > golden_zone_high`). -/
def c9Ind : AutoFibIndicator :=
  setFibonacciLevels (mkAutoFibIndicator 1 0)
    [("level_2", 618/1000), ("level_4", 382/1000)]

/-- A bar whose close equals the inverted zone's `golden_zone_low`. -/
def c9Bar : Bar :=
  { time := "01", open_ := 1, high := 2, low := 1, close := 1618/1000, volume := 0 }

/-- C9 counterexample: with swapped `level_2`/`level_4` ratios the error-free
result has `current_price = golden_zone_low` yet `price_in_golden_zone` is
false (the zone is inverted, so the price fails `current_price ≤
golden_zone_high`); the unconditional boundary claim does not hold. -/
theorem c9_counterexample :
    (calcResults c9Ind [c9Bar] "T").error = "" ∧
    (calcResults c9Ind [c9Bar] "T").current_price =
      (calcResults c9Ind [c9Bar] "T").golden_zone_low ∧
    (calcResults c9Ind [c9Bar] "T").price_in_golden_zone = false := by
  refine ⟨?_, ?_, ?_⟩ <;>
    norm_num +decide [calcResults, calculate, successState, findLowestBar,
      findHighestBar, scanLowest, scanHighest, mkAutoFibIndicator,
      setFibonacciLevels, c9Ind, c9Bar, mapBracket, mapFind?, mapInsertSorted,
      int_toNat_lit]
